import Mathlib

/-!
Verification development for the opencode worker: a shallow embedding of
the command validator (`src/security/allowlist.ts`), the resource governor
(`ResourceGovernor` in the same module), the session lifecycle manager
(`src/session/lifecycle.ts`) and the SSH job executor
(`scripts/ssh-executor.ts`), together with theorems settling the spec's
claims about them.

JavaScript regular expressions are embedded as a small regex language with
a Brzozowski-derivative matcher; `RegExp.test` (an unanchored search) is
`reTest`, and patterns anchored with a leading caret are tested with
`reTestAnchored`.  JavaScript numbers are idealized as `Nat`/`Int`; none of
the claims depends on floating-point precision.
-/

namespace Worker

/-- The character class of JavaScript's regex escape for whitespace, which is
also the set trimmed by `String.prototype.trim`. -/
def jsWhitespace (c : Char) : Bool :=
  c == ' ' || c == '\t' || c == '\n' || c == '\r' || c == '\x0b' || c == '\x0c' ||
  c == ' ' || c == ' ' || (' ' ≤ c && c ≤ ' ') ||
  c == ' ' || c == ' ' || c == ' ' || c == ' ' ||
  c == '　' || c == '﻿'

/-- `String.prototype.trim`: drop leading and trailing whitespace. -/
def jsTrim (s : List Char) : List Char :=
  ((s.dropWhile jsWhitespace).reverse.dropWhile jsWhitespace).reverse

/-- Regular expressions over characters, with class atoms given by a
decidable character predicate. -/
inductive RE where
  | emp : RE
  | eps : RE
  | cls : (Char → Bool) → RE
  | seq : RE → RE → RE
  | alt : RE → RE → RE
  | star : RE → RE

namespace RE

/-- Does the regex accept the empty string? -/
def nullable : RE → Bool
  | .emp => false
  | .eps => true
  | .cls _ => false
  | .seq a b => nullable a && nullable b
  | .alt a b => nullable a || nullable b
  | .star _ => true

/-- Smart sequencing that collapses the annihilator and unit. -/
def mkSeq : RE → RE → RE
  | .emp, _ => .emp
  | _, .emp => .emp
  | .eps, b => b
  | a, .eps => a
  | a, b => .seq a b

/-- Smart alternation that collapses the unit. -/
def mkAlt : RE → RE → RE
  | .emp, b => b
  | a, .emp => a
  | a, b => .alt a b

/-- Brzozowski derivative with respect to one character. -/
def deriv : RE → Char → RE
  | .emp, _ => .emp
  | .eps, _ => .emp
  | .cls p, c => if p c then .eps else .emp
  | .seq a b, c =>
      if nullable a then mkAlt (mkSeq (deriv a c) b) (deriv b c)
      else mkSeq (deriv a c) b
  | .alt a b, c => mkAlt (deriv a c) (deriv b c)
  | .star a, c => mkSeq (deriv a c) (.star a)

/-- Full match of a regex against a character list. -/
def matches' (r : RE) (s : List Char) : Bool :=
  nullable (s.foldl deriv r)

end RE

/-- One-or-more repetition. -/
def rePlus (r : RE) : RE := .seq r (.star r)

/-- Zero-or-one repetition. -/
def reOpt (r : RE) : RE := .alt r .eps

/-- A single literal character. -/
def chrRE (c : Char) : RE := .cls (· == c)

/-- A literal string. -/
def strRE (s : String) : RE := s.data.foldr (fun c r => .seq (chrRE c) r) .eps

/-- The whitespace class from the regex escape for whitespace. -/
def wsRE : RE := .cls jsWhitespace

/-- One-or-more whitespace characters. -/
def wsPlusRE : RE := rePlus wsRE

/-- Zero-or-more whitespace characters. -/
def wsStarRE : RE := .star wsRE

/-- The non-whitespace class from the regex escape for non-whitespace. -/
def nonWsRE : RE := .cls (fun c => !jsWhitespace c)

/-- The decimal digit class from the regex escape for digits. -/
def digitRE : RE := .cls Char.isDigit

/-- JavaScript's dot atom: any character except a line terminator. -/
def dotRE : RE :=
  .cls (fun c => !(c == '\n' || c == '\r' || c == ' ' || c == ' '))

/-- Zero-or-more dot atoms. -/
def dotStarRE : RE := .star dotRE

/-- Truly any character (the padding used by an unanchored search). -/
def anyRE : RE := .cls (fun _ => true)

/-- Zero-or-more arbitrary characters. -/
def anyStarRE : RE := .star anyRE

/-- Alternation of a list of regexes. -/
def altList (rs : List RE) : RE := rs.foldr .alt .emp

/-- `RegExp.test` for an unanchored pattern: some substring matches. -/
def reTest (r : RE) (s : List Char) : Bool :=
  RE.matches' (.seq anyStarRE (.seq r anyStarRE)) s

/-- `RegExp.test` for a pattern anchored at the start with a caret:
some prefix matches. -/
def reTestAnchored (r : RE) (s : List Char) : Bool :=
  RE.matches' (.seq r anyStarRE) s

/-- The backtick character. -/
def backtickChar : Char := Char.ofNat 96

/-- `ALLOWED_COMMANDS` from `src/security/allowlist.ts`. -/
def ALLOWED_COMMANDS : List String :=
  ["npx", "node", "npm", "bun", "pnpm", "yarn", "git", "bash", "sh", "cat",
   "ls", "mkdir", "rm", "cp", "mv", "chmod", "chown", "find", "grep", "sed",
   "awk", "jq", "curl", "wget", "tar", "unzip", "zip", "echo", "printf",
   "head", "tail", "wc", "sort", "uniq", "cut", "tr", "diff", "patch",
   "make", "cmake", "cargo", "rustc", "go", "python", "python3", "pip",
   "pip3", "uv", "poetry", "opencode", "type", "which", "whoami", "id",
   "env", "printenv", "date", "sleep", "timeout", "pwd", "hostname", "uname"]

/-- `ALLOWED_PATTERNS` from `src/security/allowlist.ts`; every source
pattern is anchored at the start with a caret, which the embedding realizes
by testing these with `reTestAnchored`. -/
def ALLOWED_PATTERNS : List RE :=
  [ .seq (strRE "npx") (.seq wsPlusRE nonWsRE),
    .seq (strRE "node") (.seq wsPlusRE nonWsRE),
    .seq (strRE "npm") (.seq wsPlusRE (.seq
      (altList [strRE "run", strRE "install", strRE "test", strRE "build",
                strRE "start", strRE "dev"]) wsStarRE)),
    .seq (strRE "bun") (.seq wsPlusRE (.seq
      (altList [strRE "run", strRE "install", strRE "test", strRE "build",
                strRE "start", strRE "dev"]) wsStarRE)),
    .seq (strRE "pnpm") (.seq wsPlusRE (.seq
      (altList [strRE "run", strRE "install", strRE "test", strRE "build",
                strRE "start", strRE "dev"]) wsStarRE)),
    .seq (strRE "git") (.seq wsPlusRE (.seq
      (altList [strRE "clone", strRE "pull", strRE "push", strRE "checkout",
                .seq (strRE "checkout") (.seq wsPlusRE (strRE "-b")),
                strRE "add", strRE "commit", strRE "status", strRE "log",
                strRE "branch", strRE "merge", strRE "fetch",
                strRE "remote"]) wsStarRE)),
    .seq (strRE "cargo") (.seq wsPlusRE (.seq
      (altList [strRE "build", strRE "test", strRE "run", strRE "check",
                strRE "doc", strRE "clippy", strRE "fmt"]) wsStarRE)),
    .seq (strRE "go") (.seq wsPlusRE (.seq
      (altList [strRE "run", strRE "build", strRE "test", strRE "get",
                strRE "mod", strRE "vet", strRE "fmt"]) wsStarRE)),
    .seq (strRE "python") (.seq (reOpt (chrRE '3'))
      (.seq wsPlusRE (.seq dotStarRE (strRE ".py")))),
    .seq (strRE "make") wsPlusRE,
    .seq (strRE "cmake") wsPlusRE,
    .seq (strRE "bash") wsPlusRE,
    .seq (strRE "bash") (.seq wsPlusRE (.seq (strRE "-c") wsPlusRE)),
    .seq (strRE "sh") wsPlusRE,
    .seq (strRE "sh") (.seq wsPlusRE (.seq (strRE "-c") wsPlusRE)),
    .seq (strRE "cat") (.seq wsPlusRE dotStarRE),
    .seq (strRE "echo") (.seq wsPlusRE dotStarRE),
    .seq (strRE "sleep") (.seq wsPlusRE (rePlus digitRE)),
    .seq (strRE "timeout") (.seq wsPlusRE (.seq (rePlus digitRE) wsPlusRE)) ]

/-- `DANGEROUS_PATTERNS` from `src/security/allowlist.ts`, each paired with
its source text (used by the rejection reason); the triplicated
remove-root pattern of the source is kept. -/
def DANGEROUS_PATTERNS : List (String × RE) :=
  [ ("/rm\\s+-rf\\s+\\//",
      .seq (strRE "rm") (.seq wsPlusRE (.seq (strRE "-rf")
        (.seq wsPlusRE (chrRE '/'))))),
    ("/rm\\s+-rf\\s+\\//",
      .seq (strRE "rm") (.seq wsPlusRE (.seq (strRE "-rf")
        (.seq wsPlusRE (chrRE '/'))))),
    ("/rm\\s+-rf\\s+\\//",
      .seq (strRE "rm") (.seq wsPlusRE (.seq (strRE "-rf")
        (.seq wsPlusRE (chrRE '/'))))),
    ("/\\/\\s*\\|\\s*sh/",
      .seq (chrRE '/') (.seq wsStarRE (.seq (chrRE '|')
        (.seq wsStarRE (strRE "sh"))))),
    ("/\\>\\s*\\/dev\\/null/",
      .seq (chrRE '>') (.seq wsStarRE (strRE "/dev/null"))),
    ("/\\$\\(/", .seq (chrRE '$') (chrRE '(')),
    ("/`[^`]+`/",
      .seq (chrRE backtickChar)
        (.seq (rePlus (.cls (fun c => !(c == backtickChar))))
          (chrRE backtickChar))),
    ("/chmod\\s+777/", .seq (strRE "chmod") (.seq wsPlusRE (strRE "777"))),
    ("/chmod\\s+4755/", .seq (strRE "chmod") (.seq wsPlusRE (strRE "4755"))),
    ("/wget\\s+.*\\|\\s*sh/",
      .seq (strRE "wget") (.seq wsPlusRE (.seq dotStarRE
        (.seq (chrRE '|') (.seq wsStarRE (strRE "sh")))))),
    ("/curl\\s+.*\\|\\s*sh/",
      .seq (strRE "curl") (.seq wsPlusRE (.seq dotStarRE
        (.seq (chrRE '|') (.seq wsStarRE (strRE "sh")))))) ]

/-- `CommandValidationResult` from `src/security/allowlist.ts`. -/
structure CommandValidationResult where
  allowed : Bool
  reason : Option String := none
  sanitized_command : Option String := none
deriving Repr, DecidableEq

/-- The base command: the first whitespace-delimited token of the trimmed
command (the source splits the trimmed string on whitespace runs and takes
element zero). -/
def baseCommandOf (trimmed : List Char) : String :=
  String.mk (trimmed.takeWhile (fun c => !jsWhitespace c))

/-- `validateCommand` from `src/security/allowlist.ts`: trim, reject empty,
reject on the first dangerous pattern, then accept by base-command
membership or by an allowed template, otherwise reject naming the base
command. -/
def validateCommand (command : String) : CommandValidationResult :=
  let trimmed := jsTrim command.data
  if trimmed.isEmpty then
    { allowed := false, reason := some "Empty command" }
  else
    match DANGEROUS_PATTERNS.find? (fun p => reTest p.2 trimmed) with
    | some p =>
        { allowed := false,
          reason := some ("Dangerous pattern detected: " ++ p.1) }
    | none =>
        let base_command := baseCommandOf trimmed
        if ALLOWED_COMMANDS.contains base_command then
          { allowed := true, sanitized_command := some (String.mk trimmed) }
        else if ALLOWED_PATTERNS.any (fun p => reTestAnchored p trimmed) then
          { allowed := true, sanitized_command := some (String.mk trimmed) }
        else
          { allowed := false,
            reason := some ("Command not in allowlist: " ++ base_command) }

/-- The characters stripped from flag-like tokens by `sanitizeCommand`. -/
def shellMetaChar (c : Char) : Bool :=
  c == ';' || c == '&' || c == '|' || c == backtickChar || c == '$' ||
  c == '(' || c == ')' || c == Char.ofNat 123 || c == Char.ofNat 125 ||
  c == '[' || c == ']' || c == '\\'

/-- Split a character list at whitespace characters (empty pieces between
consecutive separators are produced and filtered by the caller, matching a
split on whitespace runs for trimmed input). -/
def splitWsRaw (s : List Char) : List (List Char) :=
  s.foldr
    (fun c acc =>
      if jsWhitespace c then [] :: acc
      else
        match acc with
        | [] => [[c]]
        | t :: ts => (c :: t) :: ts)
    []

/-- Splitting the trimmed command on whitespace runs. -/
def splitWs (s : List Char) : List (List Char) :=
  (splitWsRaw s).filter (fun t => !t.isEmpty)

/-- `sanitizeCommand` from `src/security/allowlist.ts`: strip shell
metacharacters from tokens that begin with a dash, keep the rest, and
re-join on single spaces. -/
def sanitizeCommand (command : String) : String :=
  let trimmed := jsTrim command.data
  let parts := splitWs trimmed
  let sanitized_parts := parts.map (fun part =>
    match part with
    | c :: _ =>
        if c == '-' then part.filter (fun ch => !shellMetaChar ch) else part
    | [] => part)
  String.intercalate " " (sanitized_parts.map String.mk)

/-! ### SSH job executor (`scripts/ssh-executor.ts`) -/

/-- The numeric value of a run of decimal digits. -/
def digitsToNat (ds : List Char) : Nat :=
  ds.foldl (fun n c => n * 10 + (c.toNat - '0'.toNat)) 0

/-- The memory-limit units recognized by `parseMemory`. -/
inductive MemUnit where
  | gb
  | mb
  | kb
deriving Repr, DecidableEq

/-- The optional case-insensitive unit suffix of a memory string; an absent
suffix defaults to megabytes, any other remainder fails the match. -/
def memSuffix? : List Char → Option MemUnit
  | [] => some .mb
  | [u, b] =>
      if u.toUpper == 'G' && b.toUpper == 'B' then some .gb
      else if u.toUpper == 'M' && b.toUpper == 'B' then some .mb
      else if u.toUpper == 'K' && b.toUpper == 'B' then some .kb
      else none
  | _ => none

/-- The anchored case-insensitive match of `parseMemory`'s regex: one or
more digits followed by an optional GB/MB/KB suffix and nothing else. -/
def memMatch (s : List Char) : Option (List Char × MemUnit) :=
  let ds := s.takeWhile Char.isDigit
  if ds.isEmpty then none
  else
    match memSuffix? (s.dropWhile Char.isDigit) with
    | some u => some (ds, u)
    | none => none

/-- `SSHWorkerExecutor.parseMemory` from `scripts/ssh-executor.ts`:
megabytes from a digits-plus-optional-unit string, defaulting to 2048 on
any unrecognized format. -/
def parseMemory (memStr : String) : Nat :=
  match memMatch memStr.data with
  | none => 2048
  | some (ds, u) =>
      let value := digitsToNat ds
      match u with
      | .gb => value * 1024
      | .kb => (value + 1023) / 1024
      | .mb => value

/-- The status field of `JobResult` in `scripts/ssh-executor.ts`. -/
inductive JobStatus where
  | finished
  | failed
  | timeout
deriving Repr, DecidableEq

/-- The fields of `JobInput` relevant to job execution. -/
structure JobInput where
  job_id : String
  command : String
  timeout_ms : Nat
  memory : String
deriving Repr, DecidableEq

/-- `JobResult` from `scripts/ssh-executor.ts` (metrics omitted). -/
structure JobResult where
  job_id : String
  status : JobStatus
  exit_code : Int
  stdout : String
  stderr : String
  artifacts : List String
deriving Repr, DecidableEq

/-- The settled promise of `sshExec`: resolution with the closing exit
code, or rejection (spawn error, or the watchdog's forced kill). -/
inductive SshOutcome where
  | ok (exitCode : Int) (stdout stderr : String)
  | err (msg : String)
deriving Repr, DecidableEq

/-- The watchdog of `sshExec` with a timeout option: when the ssh process
closes within the window the promise resolves with its exit code; when it
is still running at the deadline the watchdog delivers a forced kill and
the promise rejects with the timeout message. `closesAfterMs = none` is a
process that never closes on its own. -/
def sshExecOutcome (timeoutMs : Nat) (closesAfterMs : Option Nat)
    (exitCode : Int) (out errS : String) : SshOutcome :=
  match closesAfterMs with
  | some t =>
      if t < timeoutMs then .ok exitCode out errS
      else .err ("Error: Command timed out after " ++ toString timeoutMs ++ "ms")
  | none => .err ("Error: Command timed out after " ++ toString timeoutMs ++ "ms")

/-- `SSHWorkerExecutor.runJob` from `scripts/ssh-executor.ts`, as a
function of the settled outcome of the main command's `sshExec` call: on
resolution the status is finished for exit code zero and failed otherwise;
on rejection the catch path reports failed with exit code -1 and the error
text in stderr. -/
def runJob (input : JobInput) (mainExec : SshOutcome) : JobResult :=
  match mainExec with
  | .ok code out errS =>
      { job_id := input.job_id,
        status := if code == 0 then .finished else .failed,
        exit_code := code, stdout := out, stderr := errS, artifacts := [] }
  | .err msg =>
      { job_id := input.job_id, status := .failed, exit_code := -1,
        stdout := "", stderr := msg, artifacts := [] }

/-- The spec's timeout end-to-end scenario: a job running `sleep 10` under
a 500 ms limit (`runJob` arms the watchdog at the limit plus 5000 ms). -/
def sleepJob : JobInput :=
  { job_id := "test-sleep", command := "sleep 10", timeout_ms := 500,
    memory := "512MB" }

/-! ### Resource governor (`ResourceGovernor` in `src/security`) -/

/-- `ResourceLimits` from `src/types/governance.ts`. -/
structure ResourceLimits where
  cpu : Nat
  memory_mb : Nat
  timeout_ms : Nat
  max_output_bytes : Nat
deriving Repr, DecidableEq

/-- `GovernorState` from `src/types/governance.ts`. -/
structure GovernorState where
  is_governed : Bool
  limits : ResourceLimits
  start_time : Nat
  memory_samples : List Nat
  cpu_samples : List Nat
  output_bytes : Nat
  killed : Bool
  kill_reason : Option String := none
deriving Repr, DecidableEq

/-- The `ResourceGovernor` instance: its state plus the private fields
(the monitoring interval handle as a flag, the process group, and whether
the abort controller has fired). -/
structure Governor where
  state : GovernorState
  limits : ResourceLimits
  process_group_id : Option Nat
  monitoring : Bool
  aborted : Bool
deriving Repr, DecidableEq

/-- `Partial ResourceLimits`, the constructor argument. -/
structure LimitsArg where
  cpu : Option Nat := none
  memory_mb : Option Nat := none
  timeout_ms : Option Nat := none
  max_output_bytes : Option Nat := none
deriving Repr, DecidableEq

/-- The `ResourceGovernor` constructor: fill in defaulted limits and the
initial state. -/
def newGovernor (arg : LimitsArg) : Governor :=
  let limits : ResourceLimits :=
    { cpu := arg.cpu.getD 2,
      memory_mb := arg.memory_mb.getD 2048,
      timeout_ms := arg.timeout_ms.getD 300000,
      max_output_bytes := arg.max_output_bytes.getD (10 * 1024 * 1024) }
  { state :=
      { is_governed := false, limits := limits, start_time := 0,
        memory_samples := [], cpu_samples := [], output_bytes := 0,
        killed := false, kill_reason := none },
    limits := limits, process_group_id := none, monitoring := false,
    aborted := false }

/-- The interpolation of an optional numeric value into the kill reason. -/
def valueStr : Option Nat → String
  | some v => toString v
  | none => "unknown"

/-- `ResourceGovernor.killProcess`: a no-op once killed; otherwise set the
killed flag, record the reason, stop monitoring, signal the process group
and fire the abort controller. -/
def killProcess (reason : String) (value : Option Nat) (g : Governor) :
    Governor :=
  if g.state.killed then g
  else
    { g with
      state :=
        { g.state with
          killed := true,
          kill_reason := some (reason ++ ": " ++ valueStr value) },
      monitoring := false,
      aborted := true }

/-- `ResourceGovernor.stop`: stop monitoring and clear the governed and
killed flags; every other state field is untouched. -/
def Governor.stop (g : Governor) : Governor :=
  { g with
    monitoring := false,
    state := { g.state with is_governed := false, killed := false } }

/-- `ResourceGovernor.trackOutput`: accumulate produced bytes and force a
kill once the total exceeds the output ceiling. -/
def trackOutput (bytes : Nat) (g : Governor) : Governor :=
  let st := { g.state with output_bytes := g.state.output_bytes + bytes }
  let g' := { g with state := st }
  if st.output_bytes > g.limits.max_output_bytes then
    killProcess "output_limit_exceeded" (some st.output_bytes) g'
  else g'

/-! ### Session lifecycle (`src/session/lifecycle.ts`) -/

/-- `SessionState` from `src/types/session.ts`. -/
inductive SessionState where
  | INIT
  | PREPARING
  | EXECUTING
  | COLLECTING
  | DESTROYING
  | DESTROYED
  | ERROR
deriving Repr, DecidableEq

/-- `SessionContext` from `src/types/session.ts`. -/
structure SessionContext where
  session_id : String
  job_id : String
  state : SessionState
  work_dir : String
  output_dir : String
  config_path : String
  created_at : Nat
  started_at : Option Nat := none
  finished_at : Option Nat := none
  error : Option String := none
deriving Repr, DecidableEq

/-- The filesystem, abstracted to the set of existing directory paths. -/
abbrev Fs := List String

/-- Recursive removal of a path: the path itself and everything under it
cease to exist. -/
def rmPath (p : String) (fs : Fs) : Fs :=
  fs.filter (fun q => !(q == p || String.isPrefixOf (p ++ "/") q))

/-- The error message recorded when a directory removal fails. -/
def rmErrMsg : String := "Error: EACCES: permission denied"

/-- One `fs.rm(path, recursive, force)` call whose success is determined
by the environment flag: success removes the subtree, failure throws and
leaves the filesystem unchanged. -/
def rmRec (ok : Bool) (p : String) (fs : Fs) : Except String Fs :=
  if ok then .ok (rmPath p fs) else .error rmErrMsg

/-- The manager's registry of active sessions, by session id. -/
structure Manager where
  active : List String
deriving Repr, DecidableEq

/-- `path.dirname` for the slash-separated paths used by the manager. -/
def dirname (p : String) : String :=
  match p.data.reverse.dropWhile (fun c => !(c == '/')) with
  | [] => "."
  | _ :: tail => String.mk tail.reverse

/-- `SessionLifecycleManager.destroySession`, as a function of the session,
the registry, the filesystem, and the environment's verdict on each of the
three removal calls (work dir, output dir, parent session dir).  An
already-destroyed session returns immediately.  Otherwise the state
transitions to DESTROYING; the try block removes the three directories and
deregisters the session; a removal failure skips the remaining removals and
the deregistration, and the catch block records the error on the session;
the finally block sets the state to DESTROYED.  The result is `Except` to
make the absence of propagated exceptions visible. -/
def destroySession (rm1 rm2 rm3 : Bool) (m : Manager) (fs : Fs)
    (s : SessionContext) : Except String (Manager × Fs × SessionContext) :=
  if s.state = SessionState.DESTROYED then .ok (m, fs, s)
  else
    let s1 := { s with state := SessionState.DESTROYING }
    let body : Except (String × Fs) (Manager × Fs) :=
      match rmRec rm1 s1.work_dir fs with
      | .error e => .error (e, fs)
      | .ok fs1 =>
        match rmRec rm2 s1.output_dir fs1 with
        | .error e => .error (e, fs1)
        | .ok fs2 =>
          match rmRec rm3 (dirname s1.work_dir) fs2 with
          | .error e => .error (e, fs2)
          | .ok fs3 =>
              .ok ({ active := m.active.filter (fun i => !(i == s1.session_id)) },
                   fs3)
    match body with
    | .ok (m', fs') => .ok (m', fs', { s1 with state := SessionState.DESTROYED })
    | .error (e, fsE) =>
        .ok (m, fsE, { s1 with error := some e, state := SessionState.DESTROYED })

/-- `SessionLifecycleManager.destroySessionSafe`: run `destroySession` and
swallow any exception, forcing the DESTROYED state in the catch. -/
def destroySessionSafe (rm1 rm2 rm3 : Bool) (m : Manager) (fs : Fs)
    (s : SessionContext) : Manager × Fs × SessionContext :=
  match destroySession rm1 rm2 rm3 m fs s with
  | .ok r => r
  | .error _ => (m, fs, { s with state := SessionState.DESTROYED })

/-- A concrete mid-collection session used by the concrete-input
theorems. -/
def sess0 : SessionContext :=
  { session_id := "sid-1", job_id := "job-1",
    state := SessionState.COLLECTING,
    work_dir := "root/session-sid-1/work",
    output_dir := "root/session-sid-1/output",
    config_path := "root/session-sid-1/opencode.json",
    created_at := 0 }

/-- A registry holding exactly the concrete session. -/
def m0 : Manager := { active := ["sid-1"] }

/-- A filesystem holding the concrete session's directories. -/
def fs0 : Fs :=
  ["root", "root/session-sid-1", "root/session-sid-1/work",
   "root/session-sid-1/output"]

/-- The observable actions of `runSessionLifecycle`, in order. -/
inductive LcEvent where
  | createE (sid : String)
  | prepareE
  | executeE
  | collectE
  | destroyE (sid : String)
deriving Repr, DecidableEq

/-- The environment's verdict on the three awaited stages inside the try
block of `runSessionLifecycle`: each either completes or throws. -/
structure LifecycleEnv where
  prep : Except String Unit
  exec : Except String Int
  collect : Except String (List String)

/-- `runSessionLifecycle` from `src/session/lifecycle.ts`: create a
session, then inside a try block prepare it, execute the command and
collect artifacts, re-raising any exception; the finally block destroys the
session on every path.  The result pairs the outcome with the trace of
completed stages. -/
def runSessionLifecycle (sid : String) (env : LifecycleEnv) :
    Except String Int × List LcEvent :=
  let tryResult : Except String Int × List LcEvent :=
    match env.prep with
    | .error e => (.error e, [])
    | .ok _ =>
      match env.exec with
      | .error e => (.error e, [.prepareE])
      | .ok code =>
        match env.collect with
        | .error e => (.error e, [.prepareE, .executeE])
        | .ok _ => (.ok code, [.prepareE, .executeE, .collectE])
  (tryResult.1, LcEvent.createE sid :: tryResult.2 ++ [LcEvent.destroyE sid])

/-! ## Theorems -/

/-- C2: every command whose trimmed text matches at least one dangerous
pattern is rejected by `validateCommand`, even when its base command is in
the allowed-command set: the denylist is checked first and rejects
immediately. -/
theorem validateCommand_dangerous_rejected (command : String)
    (h : DANGEROUS_PATTERNS.any
          (fun p => reTest p.2 (jsTrim command.data)) = true) :
    (validateCommand command).allowed = false := by
  rcases hf : DANGEROUS_PATTERNS.find?
      (fun p => reTest p.2 (jsTrim command.data)) with _ | p
  · exfalso
    obtain ⟨q, hq, ht⟩ := List.any_eq_true.mp h
    exact (List.find?_eq_none.mp hf q hq) ht
  · by_cases he : (jsTrim command.data).isEmpty
    · simp [validateCommand, he]
    · simp [validateCommand, he, hf]

/-- Witness for C2 at the spec's own example: the allowlisted base command
git does not save a command containing a remove-root suffix. -/
theorem validateCommand_dangerous_rejected_witness :
    DANGEROUS_PATTERNS.any
      (fun p => reTest p.2 (jsTrim ("git log; rm -rf /").data)) = true ∧
    (validateCommand "git log; rm -rf /").allowed = false ∧
    ALLOWED_COMMANDS.contains "git" = true :=
  ⟨by decide, validateCommand_dangerous_rejected "git log; rm -rf /" (by decide),
   by decide⟩

/-- C7: a non-empty command that matches no dangerous pattern, whose base
command is not in the allowed-command set, and that matches none of the
allowed templates, is rejected with a reason naming the base command. -/
theorem validateCommand_unlisted_rejected (command : String)
    (h1 : (jsTrim command.data).isEmpty = false)
    (h2 : DANGEROUS_PATTERNS.all
            (fun p => !reTest p.2 (jsTrim command.data)) = true)
    (h3 : ALLOWED_COMMANDS.contains (baseCommandOf (jsTrim command.data)) = false)
    (h4 : ALLOWED_PATTERNS.any
            (fun p => reTestAnchored p (jsTrim command.data)) = false) :
    validateCommand command =
      { allowed := false,
        reason := some ("Command not in allowlist: " ++
                        baseCommandOf (jsTrim command.data)),
        sanitized_command := none } := by
  have hf : DANGEROUS_PATTERNS.find?
      (fun p => reTest p.2 (jsTrim command.data)) = none := by
    refine List.find?_eq_none.mpr (fun a ha => ?_)
    have := List.all_eq_true.mp h2 a ha
    simp only [Bool.not_eq_true'] at this
    simp [this]
  have h3' : baseCommandOf (jsTrim command.data) ∉ ALLOWED_COMMANDS := by
    simpa using h3
  have h4' : ¬ ∃ p ∈ ALLOWED_PATTERNS,
      reTestAnchored p (jsTrim command.data) = true := by
    simpa using h4
  simp [validateCommand, h1, hf, h3', h4']

/-- Witness for C7: an editor invocation outside the allowlist is rejected
naming its base token. -/
theorem validateCommand_unlisted_rejected_witness :
    validateCommand "vim notes.txt" =
      { allowed := false,
        reason := some "Command not in allowlist: vim",
        sanitized_command := none } := by
  have h := validateCommand_unlisted_rejected "vim notes.txt"
    (by decide) (by decide) (by decide) (by decide)
  exact h.trans (by decide)

/-- C9: whenever `validateCommand` accepts, the sanitized command it
returns is exactly the trimmed input; `sanitizeCommand` plays no part in
validation, so metacharacters in an accepted command survive unchanged. -/
theorem validateCommand_sanitized_is_trimmed (command : String)
    (h : (validateCommand command).allowed = true) :
    (validateCommand command).sanitized_command =
      some (String.mk (jsTrim command.data)) := by
  by_cases he : (jsTrim command.data).isEmpty
  · simp [validateCommand, he] at h
  · rcases hf : DANGEROUS_PATTERNS.find?
        (fun p => reTest p.2 (jsTrim command.data)) with _ | p
    · by_cases hc : baseCommandOf (jsTrim command.data) ∈ ALLOWED_COMMANDS
      · simp [validateCommand, he, hf, hc]
      · by_cases ha : ∃ p ∈ ALLOWED_PATTERNS,
            reTestAnchored p (jsTrim command.data) = true
        · simp [validateCommand, he, hf, hc, ha]
        · simp [validateCommand, he, hf, hc, ha] at h
    · simp [validateCommand, he, hf] at h

/-- Witness for C9: an accepted echo command whose flag token carries a
semicolon keeps it verbatim in the sanitized command, and differs from what
`sanitizeCommand` would have produced. -/
theorem validateCommand_sanitized_is_trimmed_witness :
    (validateCommand "echo -n;x hello ").sanitized_command =
      some "echo -n;x hello" ∧
    sanitizeCommand "echo -n;x hello " = "echo -nx hello" := by
  have h := validateCommand_sanitized_is_trimmed "echo -n;x hello " (by decide)
  exact ⟨by rw [h]; decide, by decide⟩

/-- Taking while a predicate holds distributes over an append whose first
part satisfies the predicate everywhere. -/
theorem takeWhile_append_all {p : Char → Bool} {l1 l2 : List Char}
    (h : l1.all p = true) :
    (l1 ++ l2).takeWhile p = l1 ++ l2.takeWhile p := by
  induction l1 with
  | nil => simp
  | cons c cs ih =>
      simp only [List.all_cons, Bool.and_eq_true] at h
      simp [List.takeWhile_cons, h.1, ih h.2]

/-- Dropping while a predicate holds skips an append's first part when that
part satisfies the predicate everywhere. -/
theorem dropWhile_append_all {p : Char → Bool} {l1 l2 : List Char}
    (h : l1.all p = true) :
    (l1 ++ l2).dropWhile p = l2.dropWhile p := by
  induction l1 with
  | nil => simp
  | cons c cs ih =>
      simp only [List.all_cons, Bool.and_eq_true] at h
      simp [List.dropWhile_cons, h.1, ih h.2]

/-- C8: `parseMemory` converts a gigabyte suffix by multiplying by 1024,
takes a megabyte suffix and a bare number as megabytes directly, converts a
kilobyte suffix by ceiling division by 1024, and maps every string that
fails the digits-plus-optional-suffix match to the default 2048. -/
theorem parseMemory_spec :
    (∀ ds : List Char, ds ≠ [] → ds.all Char.isDigit = true →
        parseMemory (String.mk (ds ++ ['G', 'B'])) = digitsToNat ds * 1024) ∧
    (∀ ds : List Char, ds ≠ [] → ds.all Char.isDigit = true →
        parseMemory (String.mk (ds ++ ['M', 'B'])) = digitsToNat ds) ∧
    (∀ ds : List Char, ds ≠ [] → ds.all Char.isDigit = true →
        parseMemory (String.mk ds) = digitsToNat ds) ∧
    (∀ ds : List Char, ds ≠ [] → ds.all Char.isDigit = true →
        parseMemory (String.mk (ds ++ ['K', 'B'])) =
          (digitsToNat ds + 1023) / 1024) ∧
    (∀ s : String, memMatch s.data = none → parseMemory s = 2048) := by
  have hmatch : ∀ (ds suf : List Char), ds ≠ [] → ds.all Char.isDigit = true →
      suf.takeWhile Char.isDigit = [] →
      memMatch (ds ++ suf) = (memSuffix? suf).map (fun u => (ds, u)) := by
    intro ds suf hne hall hsuf
    unfold memMatch
    rw [takeWhile_append_all hall, dropWhile_append_all hall, hsuf,
        List.append_nil]
    have hde : ds.isEmpty = false := by
      cases ds with
      | nil => exact absurd rfl hne
      | cons c cs => rfl
    have hdrop : suf.dropWhile Char.isDigit = suf := by
      cases hs : suf with
      | nil => rfl
      | cons c cs =>
          rw [List.dropWhile_cons]
          have : Char.isDigit c = false := by
            by_contra hc
            rw [Bool.not_eq_false] at hc
            rw [hs, List.takeWhile_cons, hc] at hsuf
            exact List.cons_ne_nil _ _ hsuf
          simp [this]
    rw [hdrop]
    simp only [hde, Bool.false_eq_true, if_false]
    cases memSuffix? suf <;> rfl
  refine ⟨?_, ?_, ?_, ?_, ?_⟩
  · intro ds hne hall
    show parseMemory ⟨ds ++ ['G', 'B']⟩ = digitsToNat ds * 1024
    unfold parseMemory
    rw [show (String.mk (ds ++ ['G', 'B'])).data = ds ++ ['G', 'B'] from rfl,
        hmatch ds ['G', 'B'] hne hall (by decide)]
    rfl
  · intro ds hne hall
    unfold parseMemory
    rw [show (String.mk (ds ++ ['M', 'B'])).data = ds ++ ['M', 'B'] from rfl,
        hmatch ds ['M', 'B'] hne hall (by decide)]
    rfl
  · intro ds hne hall
    have hm := hmatch ds [] hne hall rfl
    rw [List.append_nil] at hm
    unfold parseMemory
    rw [show (String.mk ds).data = ds from rfl, hm]
    rfl
  · intro ds hne hall
    unfold parseMemory
    rw [show (String.mk (ds ++ ['K', 'B'])).data = ds ++ ['K', 'B'] from rfl,
        hmatch ds ['K', 'B'] hne hall (by decide)]
    rfl
  · intro s hm
    unfold parseMemory
    rw [hm]

/-- Witness for C8 at concrete inputs: 7GB, 7MB, a bare 7, 2050KB, and an
unrecognized format. -/
theorem parseMemory_spec_witness :
    parseMemory (String.mk (['7'] ++ ['G', 'B'])) = 7168 ∧
    parseMemory (String.mk (['7'] ++ ['M', 'B'])) = 7 ∧
    parseMemory (String.mk ['7']) = 7 ∧
    parseMemory (String.mk (['2', '0', '5', '0'] ++ ['K', 'B'])) = 3 ∧
    parseMemory "1.5GB" = 2048 := by
  refine ⟨?_, ?_, ?_, ?_, ?_⟩
  · exact (parseMemory_spec.1 ['7'] (by decide) (by decide)).trans (by decide)
  · exact (parseMemory_spec.2.1 ['7'] (by decide) (by decide)).trans (by decide)
  · exact (parseMemory_spec.2.2.1 ['7'] (by decide) (by decide)).trans (by decide)
  · exact (parseMemory_spec.2.2.2.1 ['2', '0', '5', '0'] (by decide)
      (by decide)).trans (by decide)
  · exact parseMemory_spec.2.2.2.2 "1.5GB" (by decide)

/-- C4: `killProcess` is idempotent — once a first call has set the killed
flag and recorded its reason, a second call with any other reason is a
no-op, leaving the first reason in place. -/
theorem killProcess_idempotent (g : Governor) (r1 r2 : String)
    (v1 v2 : Option Nat) (h : g.state.killed = false) :
    killProcess r2 v2 (killProcess r1 v1 g) = killProcess r1 v1 g ∧
    (killProcess r1 v1 g).state.killed = true ∧
    (killProcess r1 v1 g).state.kill_reason =
      some (r1 ++ ": " ++ valueStr v1) := by
  simp [killProcess, h]

/-- Witness for C4 on a fresh default governor: a timeout kill followed by
a memory kill keeps the timeout reason. -/
theorem killProcess_idempotent_witness :
    (newGovernor {}).state.killed = false ∧
    killProcess "memory_limit_exceeded" (some 4096)
        (killProcess "timeout" (some 301000) (newGovernor {})) =
      killProcess "timeout" (some 301000) (newGovernor {}) ∧
    (killProcess "timeout" (some 301000) (newGovernor {})).state.killed = true ∧
    (killProcess "timeout" (some 301000) (newGovernor {})).state.kill_reason =
      some "timeout: 301000" := by
  have h := killProcess_idempotent (newGovernor {}) "timeout"
    "memory_limit_exceeded" (some 301000) (some 4096) (by decide)
  exact ⟨by decide, h.1, h.2.1, h.2.2.trans (by decide)⟩

/-- C10: `stop` clears the governed and killed flags while leaving the kill
reason, the memory samples and the output byte count untouched; in
particular the governor no longer reports a kill after `stop`, and a
subsequent `killProcess` is effective again, recording the new reason. -/
theorem stop_clears_flags_preserves_history (g : Governor) (r : String)
    (v : Option Nat) :
    g.stop.state.is_governed = false ∧
    g.stop.state.killed = false ∧
    g.stop.state.kill_reason = g.state.kill_reason ∧
    g.stop.state.memory_samples = g.state.memory_samples ∧
    g.stop.state.output_bytes = g.state.output_bytes ∧
    (killProcess r v g.stop).state.killed = true ∧
    (killProcess r v g.stop).state.kill_reason =
      some (r ++ ": " ++ valueStr v) := by
  simp [Governor.stop, killProcess]

/-- C1 (code evaluation): `runJob` classifies the watchdog's forced kill of
the spec's timeout scenario — `sleep 10` under a 500 ms limit — as status
failed with exit code -1, and every outcome whatsoever yields status
finished or status failed, so the declared timeout status is unreachable. -/
theorem runJob_forced_kill_yields_failed :
    (runJob sleepJob
      (sshExecOutcome (sleepJob.timeout_ms + 5000) none 0 "" "")).status =
        JobStatus.failed ∧
    (runJob sleepJob
      (sshExecOutcome (sleepJob.timeout_ms + 5000) none 0 "" "")).exit_code =
        -1 ∧
    (∀ (input : JobInput) (o : SshOutcome),
        (runJob input o).status = JobStatus.finished ∨
        (runJob input o).status = JobStatus.failed) := by
  refine ⟨by decide, by decide, ?_⟩
  intro input o
  cases o with
  | ok c out e =>
      simp only [runJob]
      by_cases hc : c == 0
      · exact Or.inl (by simp [hc])
      · exact Or.inr (by simp [hc])
  | err m => exact Or.inr rfl

/-- C3 counterexample: on the path where the first directory removal fails,
`destroySession` returns with the session state DESTROYED, yet the session
is still in the active registry and its work and output directories still
exist — refuting the claim that registry absence and directory absence hold
including on the deletion-failure path. -/
theorem destroySession_failure_path_counterexample :
    (destroySessionSafe false true true m0 fs0 sess0).2.2.state =
      SessionState.DESTROYED ∧
    sess0.session_id ∈ (destroySessionSafe false true true m0 fs0 sess0).1.active ∧
    sess0.work_dir ∈ (destroySessionSafe false true true m0 fs0 sess0).2.1 ∧
    sess0.output_dir ∈ (destroySessionSafe false true true m0 fs0 sess0).2.1 := by
  decide

/-- C3 amended: after `destroySession` on a not-yet-destroyed session whose
three directory removals succeed, the state is DESTROYED, the session is
absent from the active registry, and its work and output directories no
longer exist. -/
theorem destroySession_success_postconditions (m : Manager) (fs : Fs)
    (s : SessionContext) (h : s.state ≠ SessionState.DESTROYED) :
    (destroySessionSafe true true true m fs s).2.2.state =
      SessionState.DESTROYED ∧
    s.session_id ∉ (destroySessionSafe true true true m fs s).1.active ∧
    s.work_dir ∉ (destroySessionSafe true true true m fs s).2.1 ∧
    s.output_dir ∉ (destroySessionSafe true true true m fs s).2.1 := by
  have hvis : destroySessionSafe true true true m fs s =
      ({ active := m.active.filter (fun i => !(i == s.session_id)) },
       rmPath (dirname s.work_dir) (rmPath s.output_dir (rmPath s.work_dir fs)),
       { s with state := SessionState.DESTROYED }) := by
    unfold destroySessionSafe destroySession rmRec
    simp [h]
  rw [hvis]
  refine ⟨rfl, ?_, ?_, ?_⟩
  · intro hmem
    have := (List.mem_filter.mp hmem).2
    simp at this
  · intro hmem
    have h1 := List.mem_filter.mp hmem
    have h2 := List.mem_filter.mp h1.1
    have h3 := List.mem_filter.mp h2.1
    simp at h3
  · intro hmem
    have h1 := List.mem_filter.mp hmem
    have h2 := List.mem_filter.mp h1.1
    simp at h2

/-- Witness for C3's amended claim at the concrete session. -/
theorem destroySession_success_postconditions_witness :
    (destroySessionSafe true true true m0 fs0 sess0).2.2.state =
      SessionState.DESTROYED ∧
    sess0.session_id ∉ (destroySessionSafe true true true m0 fs0 sess0).1.active ∧
    sess0.work_dir ∉ (destroySessionSafe true true true m0 fs0 sess0).2.1 := by
  have h := destroySession_success_postconditions m0 fs0 sess0 (by decide)
  exact ⟨h.1, h.2.1, h.2.2.1⟩

/-- C6: `destroySession` never propagates an exception — it returns
normally with the session state DESTROYED on every path, `destroySessionSafe`
agrees with it, and whenever a directory removal failed on a
not-yet-destroyed session, the removal error is recorded in the session's
error field instead of being raised. -/
theorem destroySession_error_swallowed (rm1 rm2 rm3 : Bool) (m : Manager)
    (fs : Fs) (s : SessionContext) :
    destroySession rm1 rm2 rm3 m fs s =
      Except.ok (destroySessionSafe rm1 rm2 rm3 m fs s) ∧
    (destroySessionSafe rm1 rm2 rm3 m fs s).2.2.state =
      SessionState.DESTROYED ∧
    (s.state ≠ SessionState.DESTROYED →
       (rm1 = false ∨ rm2 = false ∨ rm3 = false) →
       (destroySessionSafe rm1 rm2 rm3 m fs s).2.2.error = some rmErrMsg) := by
  by_cases hd : s.state = SessionState.DESTROYED
  · refine ⟨?_, ?_, fun hn => absurd hd hn⟩ <;>
      (unfold destroySessionSafe destroySession; simp [hd])
  · refine ⟨?_, ?_, fun _ hor => ?_⟩
    · cases rm1 <;> cases rm2 <;> cases rm3 <;>
        (unfold destroySessionSafe destroySession rmRec; simp [hd])
    · cases rm1 <;> cases rm2 <;> cases rm3 <;>
        (unfold destroySessionSafe destroySession rmRec; simp [hd])
    · rcases hor with h' | h' | h'
      · subst h'
        cases rm2 <;> cases rm3 <;>
          (unfold destroySessionSafe destroySession rmRec; simp [hd])
      · subst h'
        cases rm1 <;> cases rm3 <;>
          (unfold destroySessionSafe destroySession rmRec; simp [hd])
      · subst h'
        cases rm1 <;> cases rm2 <;>
          (unfold destroySessionSafe destroySession rmRec; simp [hd])

/-- Witness for C6 on the concrete session with a failing first removal:
the error is recorded and the state is DESTROYED. -/
theorem destroySession_error_swallowed_witness :
    destroySession false true true m0 fs0 sess0 =
      Except.ok (destroySessionSafe false true true m0 fs0 sess0) ∧
    (destroySessionSafe false true true m0 fs0 sess0).2.2.error =
      some rmErrMsg := by
  have h := destroySession_error_swallowed false true true m0 fs0 sess0
  exact ⟨h.1, h.2.2 (by decide) (Or.inl rfl)⟩

/-- The environment in which preparation, execution and collection all
complete. -/
def envAllOk : LifecycleEnv :=
  { prep := .ok (), exec := .ok 0, collect := .ok [] }

/-- C5: `runSessionLifecycle` emits the destroy action for the session it
created as the last action of every trace — after collection, on normal
completion, on a failing command, and when preparation, execution or
collection throws — and never destroys earlier. -/
theorem runSessionLifecycle_cleanup_last (sid : String) (env : LifecycleEnv) :
    ∃ pre,
      (runSessionLifecycle sid env).2 =
        (LcEvent.createE sid :: pre) ++ [LcEvent.destroyE sid] ∧
      LcEvent.destroyE sid ∉ (LcEvent.createE sid :: pre) ∧
      ((env.prep = .ok () ∧ (∃ c, env.exec = .ok c) ∧
        (∃ a, env.collect = .ok a)) → LcEvent.collectE ∈ pre) := by
  rcases env with ⟨p, x, c⟩
  cases p with
  | error e => exact ⟨[], rfl, by simp, by simp⟩
  | ok u =>
      cases u
      cases x with
      | error e => exact ⟨[LcEvent.prepareE], rfl, by simp, by simp⟩
      | ok code =>
          cases c with
          | error e =>
              exact ⟨[LcEvent.prepareE, LcEvent.executeE], rfl, by simp, by simp⟩
          | ok arts =>
              exact ⟨[LcEvent.prepareE, LcEvent.executeE, LcEvent.collectE],
                rfl, by simp, by simp⟩

/-- Witness for C5 on the all-success environment: the trace contains the
collection action and the destroy action. -/
theorem runSessionLifecycle_cleanup_last_witness :
    LcEvent.destroyE "s1" ∈ (runSessionLifecycle "s1" envAllOk).2 ∧
    LcEvent.collectE ∈ (runSessionLifecycle "s1" envAllOk).2 := by
  obtain ⟨pre, h1, _h2, h3⟩ := runSessionLifecycle_cleanup_last "s1" envAllOk
  have hc : LcEvent.collectE ∈ pre :=
    h3 ⟨rfl, ⟨0, rfl⟩, ⟨[], rfl⟩⟩
  constructor
  · rw [h1]
    exact List.mem_append_right _ (by simp)
  · rw [h1]
    exact List.mem_append_left _ (List.mem_cons_of_mem _ hc)

end Worker
